import Mathlib

/-!
Verification of the Proculator freight-cost estimator.

The definitions below are a shallow embedding of the calculation engine:
the zone resolver and rate table (`src/Proculator/data/logisticsData.ts`)
and the main calculation (`result` useMemo in `src/App.tsx`).  JavaScript
numbers are modelled as exact rationals (ℚ); `toFixed(2)` becomes `round2`
and `Math.round` becomes Mathlib's `round` (both round halves up, as the
ECMAScript operations do for the non-negative values arising here).
Form fields that hold free-text numbers (dead weight, invoice value) are
modelled as `Option ℚ`, `none` denoting a string `parseFloat` rejects;
the engine coerces either failure to 0 exactly as `parseFloat(x) || 0` does.
-/

namespace Proculator

/-- JS `parseFloat(x.toFixed(2))` on a non-negative number: round to two
decimal places, halves away from zero (upward for the values used here). -/
def round2 (q : ℚ) : ℚ := ((round (q * 100) : ℤ) : ℚ) / 100

/-- One row of an uploaded serviceability CSV (types.ts `ServiceabilityData`). -/
structure ServiceabilityData where
  pickupAvailable : Bool
  deliveryAvailable : Bool
  zone : String
  city : String
  state : String
deriving DecidableEq

/-- The serviceability table keyed by pincode, as an association list
(the TS `Record<string, ServiceabilityData>`). -/
abbrev ServiceabilityMap := List (String × ServiceabilityData)

/-- types.ts `LogisticsSettings`: the tunable configuration bag. -/
structure LogisticsSettings where
  volumetricDivisor : ℚ
  minChargeableWeight : ℚ
  minFreightAmount : ℚ
  fuelSurchargePercent : ℚ
  awbCharge : ℚ
  cftDensityMin : ℚ
  odaPerKg : ℚ
  odaMin : ℚ
  handling70to200 : ℚ
  handlingAbove200 : ℚ
  codPercent : ℚ
  codMin : ℚ
  rovPercent : ℚ
  rovMin : ℚ
  csdCharge : ℚ
  timeSpecificPerKg : ℚ
  timeSpecificMin : ℚ
  mallDeliveryPerKg : ℚ
  mallDeliveryMin : ℚ
  reattemptPerKg : ℚ
  reattemptMin : ℚ
  regionalSurcharge : ℚ
  serviceabilityMap : Option ServiceabilityMap
deriving DecidableEq

/-- types.ts `Dimensions`. -/
structure Dimensions where
  length : ℚ
  breadth : ℚ
  height : ℚ
deriving DecidableEq

/-- types.ts `DimensionUnit`. -/
inductive DimensionUnit where
  | cm
  | inch
deriving DecidableEq

/-- types.ts `LocationData` (the UI-only `loading` flag is dropped). -/
structure LocationData where
  pincode : String
  city : String
  state : String
deriving DecidableEq

/-- types.ts `ShipmentOptions`. -/
structure ShipmentOptions where
  isCod : Bool
  isRov : Bool
  isCsd : Bool
  isMallDelivery : Bool
  isTimeSpecific : Bool
  isHoliday : Bool
  isReattempt : Bool
deriving DecidableEq

/-- types.ts `CalculationResult`.  `totalCost` is an integer because the
source applies `Math.round` to it. -/
@[ext]
structure CalculationResult where
  volumetricWeight : ℚ
  deadWeight : ℚ
  chargeableWeight : ℚ
  zoneFrom : String
  zoneTo : String
  baseRate : ℚ
  freightCharge : ℚ
  fuelSurcharge : ℚ
  awbCharge : ℚ
  odaCharge : ℚ
  handlingCharge : ℚ
  regionalCharge : ℚ
  otherSurcharges : ℚ
  codCharge : ℚ
  rovCharge : ℚ
  totalCost : ℤ
  isOda : Bool
  pickupOda : Bool
  deliveryOda : Bool
  warnings : List String
deriving DecidableEq

/-- App.tsx `DEFAULT_SETTINGS`. -/
def DEFAULT_SETTINGS : LogisticsSettings where
  volumetricDivisor := 4500
  minChargeableWeight := 20
  minFreightAmount := 350
  fuelSurchargePercent := 25
  awbCharge := 100
  cftDensityMin := 7
  odaPerKg := 8
  odaMin := 1000
  handling70to200 := 3
  handlingAbove200 := 4
  codPercent := 1
  codMin := 50
  rovPercent := 0.5
  rovMin := 100
  csdCharge := 1000
  timeSpecificPerKg := 3
  timeSpecificMin := 1500
  mallDeliveryPerKg := 3
  mallDeliveryMin := 500
  reattemptPerKg := 3
  reattemptMin := 500
  regionalSurcharge := 5
  serviceabilityMap := none

/-- App.tsx `DEFAULT_OPTIONS`. -/
def DEFAULT_OPTIONS : ShipmentOptions where
  isCod := false
  isRov := false
  isCsd := false
  isMallDelivery := false
  isTimeSpecific := false
  isHoliday := false
  isReattempt := false

/-- logisticsData.ts `STATE_ZONE_MAP`. -/
def STATE_ZONE_MAP : List (String × String) :=
  [("delhi", "N1"), ("new delhi", "N1"), ("uttar pradesh", "N1"),
   ("haryana", "N1"), ("rajasthan", "N1"),
   ("chandigarh", "N2"), ("punjab", "N2"), ("himachal pradesh", "N2"),
   ("uttarakhand", "N2"), ("jammu & kashmir", "N2"),
   ("jammu and kashmir", "N2"), ("ladakh", "N2"),
   ("west bengal", "E"), ("odisha", "E"), ("bihar", "E"),
   ("jharkhand", "E"), ("chhattisgarh", "E"),
   ("assam", "NE"), ("meghalaya", "NE"), ("tripura", "NE"),
   ("arunachal pradesh", "NE"), ("mizoram", "NE"), ("manipur", "NE"),
   ("nagaland", "NE"), ("sikkim", "NE"),
   ("gujarat", "W1"), ("daman & diu", "W1"), ("daman and diu", "W1"),
   ("dadra & nagar haveli", "W1"),
   ("maharashtra", "W2"), ("goa", "W2"),
   ("andhra pradesh", "S1"), ("telangana", "S1"), ("karnataka", "S1"),
   ("tamil nadu", "S1"), ("puducherry", "S1"),
   ("kerala", "S2"),
   ("madhya pradesh", "Central")]

/-- logisticsData.ts `ZONE_PRICE_MATRIX`. -/
def ZONE_PRICE_MATRIX : List (String × List (String × ℚ)) :=
  [("N1", [("N1", 7.5), ("N2", 8.5), ("E", 15), ("NE", 20.5), ("W1", 11),
           ("W2", 12.5), ("S1", 13.5), ("S2", 14.5), ("Central", 10)]),
   ("N2", [("N1", 8.78), ("N2", 10.13), ("E", 17.89), ("NE", 23.96),
           ("W1", 14.51), ("W2", 14.51), ("S1", 15.93), ("S2", 16.88),
           ("Central", 11.81)]),
   ("E", [("N1", 11.14), ("N2", 12.83), ("E", 11.14), ("NE", 16.54),
          ("W1", 14.85), ("W2", 14.85), ("S1", 14.58), ("S2", 14.58),
          ("Central", 14.51)]),
   ("NE", [("N1", 15.86), ("N2", 17.21), ("E", 12.83), ("NE", 13.84),
           ("W1", 19.24), ("W2", 19.24), ("S1", 18.23), ("S2", 18.98),
           ("Central", 20.93)]),
   ("W1", [("N1", 10.8), ("N2", 12.83), ("E", 19.58), ("NE", 27),
           ("W1", 7.76), ("W2", 7.76), ("S1", 12.83), ("S2", 12.83),
           ("Central", 9.79)]),
   ("W2", [("N1", 15.19), ("N2", 16.2), ("E", 23.29), ("NE", 30.71),
           ("W1", 11.14), ("W2", 11.14), ("S1", 15.53), ("S2", 15.53),
           ("Central", 11.81)]),
   ("S1", [("N1", 18.56), ("N2", 19.58), ("E", 21.6), ("NE", 27.34),
           ("W1", 13.84), ("W2", 13.84), ("S1", 9.18), ("S2", 10.13),
           ("Central", 16.2)]),
   ("S2", [("N1", 21.94), ("N2", 23.29), ("E", 24.64), ("NE", 29.36),
           ("W1", 17.55), ("W2", 17.55), ("S1", 11.88), ("S2", 11.88),
           ("Central", 19.58)]),
   ("Central", [("N1", 11.81), ("N2", 12.83), ("E", 15.86), ("NE", 23.63),
                ("W1", 11.14), ("W2", 11.14), ("S1", 13.5), ("S2", 13.91),
                ("Central", 7.76)])]

/-- JS `String.prototype.toLowerCase` (ASCII, as exercised here), written
over the character list so that it evaluates inside the kernel. -/
def toLowerStr (s : String) : String := String.mk (s.data.map Char.toLower)

/-- JS `String.prototype.trim`: strip leading and trailing whitespace. -/
def trimStr (s : String) : String :=
  String.mk (((s.data.dropWhile Char.isWhitespace).reverse.dropWhile
    Char.isWhitespace).reverse)

/-- Helper for string matching: is the first list a leading segment of
the second?  (The scan step of JS `includes` / `startsWith`.) -/
def leadsList : List Char → List Char → Bool
  | [], _ => true
  | _ :: _, [] => false
  | c :: cs, d :: ds => c == d && leadsList cs ds

/-- JS `s.startsWith(pat)`. -/
def startsWithStr (s pat : String) : Bool := leadsList pat.data s.data

/-- Does the first list contain the second as a contiguous segment? -/
def containsSeg : List Char → List Char → Bool
  | [], pat => pat.isEmpty
  | c :: rest, pat => leadsList pat (c :: rest) || containsSeg rest pat

/-- JS `s.includes(pat)`. -/
def strIncludes (s pat : String) : Bool := containsSeg s.data pat.data

/-- logisticsData.ts `getZone`: normalize (lowercase, trim) and look up;
an empty state name or an unmapped state yields `none`. -/
def getZone (stateName : String) : Option String :=
  if stateName = "" then none
  else STATE_ZONE_MAP.lookup (trimStr (toLowerStr stateName))

/-- App.tsx line 197: `ZONE_PRICE_MATRIX[zoneFrom]?.[zoneTo] || 0`. -/
def rateLookup (zoneFrom zoneTo : String) : ℚ :=
  match ZONE_PRICE_MATRIX.lookup zoneFrom with
  | none => 0
  | some row =>
    match row.lookup zoneTo with
    | none => 0
    | some r => r

/-- App.tsx lines 151-158: the effective zone of an endpoint.  Start from
the state-derived zone; when a serviceability table is loaded and holds a
record for the exact pincode whose `zone` field is non-empty (truthy), that
record's zone overrides. -/
def effectiveZone (l : LocationData) (m : Option ServiceabilityMap) :
    Option String :=
  let z := getZone l.state
  match m with
  | none => z
  | some tbl =>
    match tbl.lookup l.pincode with
    | none => z
    | some d => if d.zone = "" then z else some d.zone

/-- App.tsx lines 163-166: the pickup leg is ODA iff a serviceability table
is loaded and either has no record for the pincode or the record's
`pickupAvailable` flag is false. -/
def pickupOdaFlag (l : LocationData) (m : Option ServiceabilityMap) : Bool :=
  match m with
  | none => false
  | some tbl =>
    match tbl.lookup l.pincode with
    | none => true
    | some d => !d.pickupAvailable

/-- App.tsx lines 168-171: the delivery leg is ODA iff a serviceability
table is loaded and either has no record for the pincode or the record's
`deliveryAvailable` flag is false. -/
def deliveryOdaFlag (l : LocationData) (m : Option ServiceabilityMap) : Bool :=
  match m with
  | none => false
  | some tbl =>
    match tbl.lookup l.pincode with
    | none => true
    | some d => !d.deliveryAvailable

/-- App.tsx lines 181-187: dimensions are converted to centimeters when
entered in inches (factor 2.54 per axis). -/
def dimsInCm (d : Dimensions) (u : DimensionUnit) : Dimensions :=
  match u with
  | .cm => d
  | .inch => ⟨d.length * 2.54, d.breadth * 2.54, d.height * 2.54⟩

/-- App.tsx lines 189-190: volumetric weight is volume over the divisor,
or 0 when the volume is not positive. -/
def volumetricWeightCalc (d : Dimensions) (u : DimensionUnit)
    (divisor : ℚ) : ℚ :=
  let dc := dimsInCm d u
  let volume := dc.length * dc.breadth * dc.height
  if volume > 0 then volume / divisor else 0

/-- App.tsx lines 193-194: chargeable weight is the three-way max of dead
weight, volumetric weight and the configured minimum, then `toFixed(2)`. -/
def chargeableWeightCalc (deadWt volumetricWt minWt : ℚ) : ℚ :=
  round2 (max (max deadWt volumetricWt) minWt)

/-- App.tsx lines 199-203: base freight is rate times chargeable weight,
clamped up to the minimum freight amount when below it. -/
def basicFreight (rate chargeable minFreight : ℚ) : ℚ :=
  let f := rate * chargeable
  if f < minFreight then minFreight else f

/-- App.tsx line 208: fuel surcharge is proportional to basic freight. -/
def fuelSurchargeCalc (freight pct : ℚ) : ℚ := freight * (pct / 100)

/-- App.tsx lines 211-214: ODA charge when the shipment is ODA. -/
def odaChargeCalc (isOda : Bool) (s : LogisticsSettings)
    (chargeable : ℚ) : ℚ :=
  if isOda then max s.odaMin (s.odaPerKg * chargeable) else 0

/-- App.tsx lines 217-222: tiered handling charge. -/
def handlingChargeCalc (s : LogisticsSettings) (chargeable : ℚ) : ℚ :=
  if 71 ≤ chargeable ∧ chargeable ≤ 200 then s.handling70to200 * chargeable
  else if 200 < chargeable then s.handlingAbove200 * chargeable
  else 0

/-- App.tsx line 226: the Guwahati carve-out test on the destination. -/
def isGuwahatiDest (drop : LocationData) : Bool :=
  strIncludes (toLowerStr drop.city) "guwahati"
    || startsWithStr drop.pincode "781"

/-- App.tsx lines 227-230: is the destination in the regional-surcharge
scope?  J&K (either spelling) or Himachal Pradesh by lowercased state name,
or a state resolving to the NE zone that is not the Guwahati carve-out. -/
def isRegionalZoneDest (drop : LocationData) : Bool :=
  let destStateLower := toLowerStr drop.state
  ["jammu & kashmir", "himachal pradesh", "jammu and kashmir"].contains
      destStateLower
    || (getZone destStateLower == some "NE" && !isGuwahatiDest drop)

/-- App.tsx lines 225-234: regional surcharge. -/
def regionalChargeCalc (drop : LocationData) (s : LogisticsSettings)
    (chargeable : ℚ) : ℚ :=
  if isRegionalZoneDest drop then s.regionalSurcharge * chargeable else 0

/-- App.tsx lines 237-256: the additive option surcharges (holiday, CSD,
time-specific, mall delivery, re-attempt). -/
def otherSurchargesCalc (o : ShipmentOptions) (s : LogisticsSettings)
    (chargeable : ℚ) : ℚ :=
  (if o.isHoliday then 1000 else 0)
    + (if o.isCsd then s.csdCharge else 0)
    + (if o.isTimeSpecific then
        max s.timeSpecificMin (s.timeSpecificPerKg * chargeable) else 0)
    + (if o.isMallDelivery then
        max s.mallDeliveryMin (s.mallDeliveryPerKg * chargeable) else 0)
    + (if o.isReattempt then
        max s.reattemptMin (s.reattemptPerKg * chargeable) else 0)

/-- App.tsx lines 259-262: COD charge. -/
def codChargeCalc (o : ShipmentOptions) (s : LogisticsSettings)
    (invValue : ℚ) : ℚ :=
  if o.isCod then max s.codMin (invValue * (s.codPercent / 100)) else 0

/-- App.tsx lines 265-268: ROV (carrier risk) charge. -/
def rovChargeCalc (o : ShipmentOptions) (s : LogisticsSettings)
    (invValue : ℚ) : ℚ :=
  if o.isRov then max s.rovMin (invValue * (s.rovPercent / 100)) else 0

/-- App.tsx lines 175-297: the body of the calculation once both zones have
resolved to `zf` and `zt`.  Mirrors the source line by line; every displayed
currency field is the `toFixed(2)` of its unrounded counterpart, and
`totalCost` is `Math.round` of the sum of the unrounded components.  The
serviceability map (read as `settings.serviceabilityMap` in the source) is
hoisted into the explicit argument `m`. -/
def calcCore (pickup drop : LocationData) (weight invoiceValue : Option ℚ)
    (dims : Dimensions) (dimUnit : DimensionUnit)
    (settings : LogisticsSettings) (options : ShipmentOptions)
    (m : Option ServiceabilityMap) (zf zt : String) : CalculationResult :=
  let pOda := pickupOdaFlag pickup m
  let dOda := deliveryOdaFlag drop m
  let isOda := pOda || dOda
  let deadWt := weight.getD 0
  let invValue := invoiceValue.getD 0
  let volumetricWt :=
    volumetricWeightCalc dims dimUnit settings.volumetricDivisor
  let chargeable :=
    chargeableWeightCalc deadWt volumetricWt settings.minChargeableWeight
  let rate := rateLookup zf zt
  let freight := basicFreight rate chargeable settings.minFreightAmount
  let fuel := fuelSurchargeCalc freight settings.fuelSurchargePercent
  let oda := odaChargeCalc isOda settings chargeable
  let handling := handlingChargeCalc settings chargeable
  let regional := regionalChargeCalc drop settings chargeable
  let other := otherSurchargesCalc options settings chargeable
  let cod := codChargeCalc options settings invValue
  let rov := rovChargeCalc options settings invValue
  let awb := settings.awbCharge
  let total :=
    freight + fuel + awb + oda + handling + regional + other + cod + rov
  { volumetricWeight := round2 volumetricWt
    deadWeight := deadWt
    chargeableWeight := chargeable
    zoneFrom := zf
    zoneTo := zt
    baseRate := rate
    freightCharge := round2 freight
    fuelSurcharge := round2 fuel
    awbCharge := awb
    odaCharge := round2 oda
    handlingCharge := round2 handling
    regionalCharge := round2 regional
    otherSurcharges := round2 other
    codCharge := round2 cod
    rovCharge := round2 rov
    totalCost := round total
    isOda := isOda
    pickupOda := pOda
    deliveryOda := dOda
    warnings := [] }

/-- App.tsx lines 140-298: the full calculation.  Returns `none` when a
state field is empty (line 141) or when either endpoint's effective zone
(state-derived, then serviceability-overridden) is unresolved (line 174);
otherwise produces the full result record. -/
def calculate (pickup drop : LocationData) (weight invoiceValue : Option ℚ)
    (dims : Dimensions) (dimUnit : DimensionUnit)
    (settings : LogisticsSettings) (options : ShipmentOptions) :
    Option CalculationResult :=
  if pickup.state = "" ∨ drop.state = "" then none
  else
    match effectiveZone pickup settings.serviceabilityMap,
        effectiveZone drop settings.serviceabilityMap with
    | some zf, some zt =>
      some (calcCore pickup drop weight invoiceValue dims dimUnit settings
        options settings.serviceabilityMap zf zt)
    | _, _ => none

/-! Concrete fixtures used by the closed evaluation theorems. -/

/-- A Delhi pickup endpoint. -/
def pickupDelhi : LocationData := ⟨"110001", "New Delhi", "Delhi"⟩

/-- A Maharashtra drop endpoint. -/
def dropMumbai : LocationData := ⟨"400001", "Mumbai", "Maharashtra"⟩

/-- A Himachal Pradesh drop endpoint (regional surcharge applies). -/
def dropShimla : LocationData := ⟨"171001", "Shimla", "Himachal Pradesh"⟩

/-- A north-east drop endpoint carved out by city name. -/
def dropGuwahati : LocationData := ⟨"781005", "Guwahati", "Assam"⟩

/-- A north-east drop endpoint carved out by the 781 pincode. -/
def dropDispur : LocationData := ⟨"781001", "Dispur", "Assam"⟩

/-- An endpoint with everything blank. -/
def blankLocation : LocationData := ⟨"", "", ""⟩

/-- All-zero dimensions. -/
def dims0 : Dimensions := ⟨0, 0, 0⟩

/-- Serviceability record overriding the zone of the Delhi pickup to S1. -/
def recS1 : ServiceabilityData := ⟨true, true, "S1", "New Delhi", "Delhi"⟩

/-- Serviceability record for the drop with no zone override. -/
def recPlain : ServiceabilityData := ⟨true, true, "", "Mumbai", "Maharashtra"⟩

/-- A serviceability table holding both fixtures. -/
def tblOverride : ServiceabilityMap :=
  [("110001", recS1), ("400001", recPlain)]

/-- Default settings with the override table loaded. -/
def settingsOverride : LogisticsSettings :=
  { DEFAULT_SETTINGS with serviceabilityMap := some tblOverride }

/-- The result record of the basic Delhi-to-Mumbai run with no weight. -/
def resultBasic : CalculationResult :=
  calcCore pickupDelhi dropMumbai none none dims0 .cm DEFAULT_SETTINGS
    DEFAULT_OPTIONS none "N1" "W2"

/-- The result record for a dead weight of 20.004 kg. -/
def resultCexWeight : CalculationResult :=
  calcCore pickupDelhi dropMumbai (some 20.004) none dims0 .cm
    DEFAULT_SETTINGS DEFAULT_OPTIONS none "N1" "W2"

/-- The result record of the run with the zone-override table loaded. -/
def resultOverride : CalculationResult :=
  calcCore pickupDelhi dropMumbai none none dims0 .cm settingsOverride
    DEFAULT_OPTIONS (some tblOverride) "S1" "W2"

/-- The result record of the Delhi-to-Shimla run. -/
def resultShimla : CalculationResult :=
  calcCore pickupDelhi dropShimla none none dims0 .cm DEFAULT_SETTINGS
    DEFAULT_OPTIONS none "N1" "N2"

/-- The result record of the Delhi-to-Guwahati run. -/
def resultGuwahati : CalculationResult :=
  calcCore pickupDelhi dropGuwahati none none dims0 .cm DEFAULT_SETTINGS
    DEFAULT_OPTIONS none "N1" "NE"

/-- The result record of the Delhi-to-Dispur (pincode 781001) run. -/
def resultDispur : CalculationResult :=
  calcCore pickupDelhi dropDispur none none dims0 .cm DEFAULT_SETTINGS
    DEFAULT_OPTIONS none "N1" "NE"

/-! Helper lemmas. -/

/-- Characterisation of `round` on ℚ used to evaluate concrete roundings. -/
lemma round_rat_eq (q : ℚ) (n : ℤ) (h1 : (n : ℚ) ≤ q + 1/2)
    (h2 : q + 1/2 < n + 1) : round q = n := by
  rw [round_eq]
  exact Int.floor_eq_iff.mpr ⟨h1, h2⟩

/-- `round` on ℚ is monotone. -/
lemma round_rat_mono {a b : ℚ} (h : a ≤ b) : round a ≤ round b := by
  rw [round_eq, round_eq]
  exact Int.floor_le_floor (by linarith)

/-- `round2` is monotone. -/
lemma round2_mono {a b : ℚ} (h : a ≤ b) : round2 a ≤ round2 b := by
  unfold round2
  have h1 : round (a * 100) ≤ round (b * 100) := round_rat_mono (by linarith)
  have h2 : ((round (a * 100) : ℤ) : ℚ) ≤ ((round (b * 100) : ℤ) : ℚ) := by
    exact_mod_cast h1
  linarith

/-- Rounding zero to two decimals gives zero. -/
lemma round2_zero : round2 0 = 0 := by
  unfold round2
  rw [show ((0 : ℚ) * 100) = ((0 : ℤ) : ℚ) by norm_num, round_intCast]
  norm_num

/-- Adding the flat 1000 commutes with two-decimal rounding. -/
lemma round2_add_thousand (x : ℚ) : round2 (x + 1000) = round2 x + 1000 := by
  unfold round2
  have h : (x + 1000) * 100 = x * 100 + ((100000 : ℤ) : ℚ) := by push_cast; ring
  rw [h, round_add_int]
  push_cast
  ring

/-- Evaluation of `round2` at a concrete argument, via the bracketing
integer `n`. -/
lemma round2_eval (q : ℚ) (n : ℤ) (h1 : (n : ℚ) ≤ q * 100 + 1/2)
    (h2 : q * 100 + 1/2 < n + 1) : round2 q = (n : ℚ) / 100 := by
  unfold round2
  rw [round_rat_eq (q * 100) n h1 h2]

/-- Forward evaluation: when both states are non-empty and both effective
zones resolve, `calculate` produces `calcCore`. -/
lemma calculate_eq_some_of {pickup drop : LocationData} {w v : Option ℚ}
    {dims : Dimensions} {u : DimensionUnit} {s : LogisticsSettings}
    {o : ShipmentOptions} {zf zt : String}
    (hp : ¬pickup.state = "") (hd : ¬drop.state = "")
    (hzf : effectiveZone pickup s.serviceabilityMap = some zf)
    (hzt : effectiveZone drop s.serviceabilityMap = some zt) :
    calculate pickup drop w v dims u s o =
      some (calcCore pickup drop w v dims u s o s.serviceabilityMap zf zt) := by
  unfold calculate
  rw [if_neg (by simp [hp, hd]), hzf, hzt]

/-- Inversion: a produced result is `calcCore` at the resolved zones. -/
lemma calculate_some_inv {pickup drop : LocationData} {w v : Option ℚ}
    {dims : Dimensions} {u : DimensionUnit} {s : LogisticsSettings}
    {o : ShipmentOptions} {r : CalculationResult}
    (h : calculate pickup drop w v dims u s o = some r) :
    ¬pickup.state = "" ∧ ¬drop.state = "" ∧
    ∃ zf zt, effectiveZone pickup s.serviceabilityMap = some zf ∧
      effectiveZone drop s.serviceabilityMap = some zt ∧
      r = calcCore pickup drop w v dims u s o s.serviceabilityMap zf zt := by
  unfold calculate at h
  by_cases hc : pickup.state = "" ∨ drop.state = ""
  · rw [if_pos hc] at h
    exact Option.noConfusion h
  · rw [if_neg hc] at h
    push_neg at hc
    revert h
    rcases hzf : effectiveZone pickup s.serviceabilityMap with _ | zf <;>
      rcases hzt : effectiveZone drop s.serviceabilityMap with _ | zt <;>
      intro h
    · exact Option.noConfusion h
    · exact Option.noConfusion h
    · exact Option.noConfusion h
    · exact ⟨hc.1, hc.2, zf, zt, rfl, rfl, (Option.some.inj h).symm⟩

/-- `round2` fixes a rational whose value in hundredths is integral. -/
lemma round2_of_mul_int (q : ℚ) (n : ℤ) (h : q * 100 = (n : ℚ)) :
    round2 q = q := by
  unfold round2
  rw [h, round_intCast]
  linarith

/-- Zero dimensions give zero volumetric weight. -/
lemma vol_dims0_eval :
    volumetricWeightCalc dims0 .cm DEFAULT_SETTINGS.volumetricDivisor = 0 := by
  unfold volumetricWeightCalc dimsInCm dims0
  norm_num

/-- With no weight and zero dimensions the chargeable weight is the
default minimum, 20. -/
lemma chargeable_basic :
    chargeableWeightCalc ((none : Option ℚ).getD 0)
      (volumetricWeightCalc dims0 .cm DEFAULT_SETTINGS.volumetricDivisor)
      DEFAULT_SETTINGS.minChargeableWeight = 20 := by
  rw [chargeableWeightCalc, vol_dims0_eval]
  show round2 (max (max 0 0) 20) = 20
  rw [max_self, max_eq_right (by norm_num),
    round2_of_mul_int 20 2000 (by norm_num)]

/-- The basic Delhi-to-Mumbai run evaluates to `resultBasic`. -/
lemma calculate_basic_eval :
    calculate pickupDelhi dropMumbai none none dims0 .cm DEFAULT_SETTINGS
      DEFAULT_OPTIONS = some resultBasic := rfl

/-- The 20.004 kg run evaluates to `resultCexWeight`. -/
lemma calculate_cexWeight_eval :
    calculate pickupDelhi dropMumbai (some 20.004) none dims0 .cm
      DEFAULT_SETTINGS DEFAULT_OPTIONS = some resultCexWeight := rfl

/-- The run with the override table evaluates to `resultOverride`. -/
lemma calculate_override_eval :
    calculate pickupDelhi dropMumbai none none dims0 .cm settingsOverride
      DEFAULT_OPTIONS = some resultOverride := rfl

/-- The Delhi-to-Shimla run evaluates to `resultShimla`. -/
lemma calculate_shimla_eval :
    calculate pickupDelhi dropShimla none none dims0 .cm DEFAULT_SETTINGS
      DEFAULT_OPTIONS = some resultShimla := rfl

/-- The Delhi-to-Guwahati run evaluates to `resultGuwahati`. -/
lemma calculate_guwahati_eval :
    calculate pickupDelhi dropGuwahati none none dims0 .cm DEFAULT_SETTINGS
      DEFAULT_OPTIONS = some resultGuwahati := rfl

/-- The Delhi-to-Dispur run evaluates to `resultDispur`. -/
lemma calculate_dispur_eval :
    calculate pickupDelhi dropDispur none none dims0 .cm DEFAULT_SETTINGS
      DEFAULT_OPTIONS = some resultDispur := rfl

/-! Claim theorems. -/

/-- C1: whenever `calculate` returns a result, its `totalCost` is the sum
of the nine line items (freight, fuel, AWB, ODA, handling, regional, other,
COD, ROV) as computed, rounded to the nearest whole currency unit exactly
once, at the end. -/
theorem totalCost_sum_rounded_once (pickup drop : LocationData)
    (w v : Option ℚ) (dims : Dimensions) (u : DimensionUnit)
    (s : LogisticsSettings) (o : ShipmentOptions) (r : CalculationResult)
    (h : calculate pickup drop w v dims u s o = some r) :
    r.totalCost = round
      (basicFreight r.baseRate r.chargeableWeight s.minFreightAmount
        + fuelSurchargeCalc
            (basicFreight r.baseRate r.chargeableWeight s.minFreightAmount)
            s.fuelSurchargePercent
        + s.awbCharge
        + odaChargeCalc r.isOda s r.chargeableWeight
        + handlingChargeCalc s r.chargeableWeight
        + regionalChargeCalc drop s r.chargeableWeight
        + otherSurchargesCalc o s r.chargeableWeight
        + codChargeCalc o s (v.getD 0)
        + rovChargeCalc o s (v.getD 0)) := by
  obtain ⟨-, -, zf, zt, -, -, rfl⟩ := calculate_some_inv h
  rfl

/-- C1 witness: the rounded-once equation at the basic run. -/
theorem totalCost_sum_rounded_once_witness :
    resultBasic.totalCost = round
      (basicFreight resultBasic.baseRate resultBasic.chargeableWeight
          DEFAULT_SETTINGS.minFreightAmount
        + fuelSurchargeCalc
            (basicFreight resultBasic.baseRate resultBasic.chargeableWeight
              DEFAULT_SETTINGS.minFreightAmount)
            DEFAULT_SETTINGS.fuelSurchargePercent
        + DEFAULT_SETTINGS.awbCharge
        + odaChargeCalc resultBasic.isOda DEFAULT_SETTINGS
            resultBasic.chargeableWeight
        + handlingChargeCalc DEFAULT_SETTINGS resultBasic.chargeableWeight
        + regionalChargeCalc dropMumbai DEFAULT_SETTINGS
            resultBasic.chargeableWeight
        + otherSurchargesCalc DEFAULT_OPTIONS DEFAULT_SETTINGS
            resultBasic.chargeableWeight
        + codChargeCalc DEFAULT_OPTIONS DEFAULT_SETTINGS
            ((none : Option ℚ).getD 0)
        + rovChargeCalc DEFAULT_OPTIONS DEFAULT_SETTINGS
            ((none : Option ℚ).getD 0)) :=
  totalCost_sum_rounded_once pickupDelhi dropMumbai none none dims0 .cm
    DEFAULT_SETTINGS DEFAULT_OPTIONS resultBasic calculate_basic_eval

/-- C2 (amended): whenever `calculate` returns a result, the chargeable
weight is the three-way max of dead weight, volumetric weight and the
configured minimum, rounded to two decimals; consequently it is at least
the two-decimal rounding of each of the three quantities (the raw
inequalities can fail by less than 0.005, see the counterexample). -/
theorem chargeable_rounded_max (pickup drop : LocationData)
    (w v : Option ℚ) (dims : Dimensions) (u : DimensionUnit)
    (s : LogisticsSettings) (o : ShipmentOptions) (r : CalculationResult)
    (h : calculate pickup drop w v dims u s o = some r) :
    r.chargeableWeight = round2 (max (max (w.getD 0)
        (volumetricWeightCalc dims u s.volumetricDivisor))
        s.minChargeableWeight) ∧
    round2 s.minChargeableWeight ≤ r.chargeableWeight ∧
    round2 (w.getD 0) ≤ r.chargeableWeight ∧
    round2 (volumetricWeightCalc dims u s.volumetricDivisor)
      ≤ r.chargeableWeight := by
  obtain ⟨-, -, zf, zt, -, -, rfl⟩ := calculate_some_inv h
  refine ⟨rfl, ?_, ?_, ?_⟩
  · exact round2_mono (le_max_right _ _)
  · exact round2_mono (le_trans (le_max_left _ _) (le_max_left _ _))
  · exact round2_mono (le_trans (le_max_right _ _) (le_max_left _ _))

/-- C2 witness: the amendment at the basic run. -/
theorem chargeable_rounded_max_witness :
    resultBasic.chargeableWeight = round2 (max (max ((none : Option ℚ).getD 0)
        (volumetricWeightCalc dims0 .cm DEFAULT_SETTINGS.volumetricDivisor))
        DEFAULT_SETTINGS.minChargeableWeight) ∧
    round2 DEFAULT_SETTINGS.minChargeableWeight
      ≤ resultBasic.chargeableWeight ∧
    round2 ((none : Option ℚ).getD 0) ≤ resultBasic.chargeableWeight ∧
    round2 (volumetricWeightCalc dims0 .cm
        DEFAULT_SETTINGS.volumetricDivisor)
      ≤ resultBasic.chargeableWeight :=
  chargeable_rounded_max pickupDelhi dropMumbai none none dims0 .cm
    DEFAULT_SETTINGS DEFAULT_OPTIONS resultBasic calculate_basic_eval

/-- C2 counterexample: at dead weight 20.004 kg (all else default) the
reported chargeable weight is 20, strictly below the dead weight, refuting
the unconditional inequality chargeableWeight ≥ dead weight. -/
theorem chargeable_below_dead_weight_cex :
    calculate pickupDelhi dropMumbai (some 20.004) none dims0 .cm
        DEFAULT_SETTINGS DEFAULT_OPTIONS = some resultCexWeight ∧
    resultCexWeight.deadWeight = 20.004 ∧
    resultCexWeight.chargeableWeight = 20 ∧
    resultCexWeight.chargeableWeight < resultCexWeight.deadWeight := by
  have hvol : volumetricWeightCalc dims0 .cm
      DEFAULT_SETTINGS.volumetricDivisor = 0 := by
    unfold volumetricWeightCalc dimsInCm dims0
    norm_num
  have hch : resultCexWeight.chargeableWeight = 20 := by
    show round2 (max (max ((some (20.004 : ℚ)).getD 0)
        (volumetricWeightCalc dims0 .cm DEFAULT_SETTINGS.volumetricDivisor))
        DEFAULT_SETTINGS.minChargeableWeight) = 20
    rw [hvol]
    show round2 (max (max (20.004 : ℚ) 0) 20) = 20
    rw [max_eq_left (by norm_num), max_eq_left (by norm_num),
      round2_eval 20.004 2000 (by norm_num) (by norm_num)]
    norm_num
  refine ⟨calculate_cexWeight_eval, rfl, hch, ?_⟩
  rw [hch]
  show (20 : ℚ) < 20.004
  norm_num

/-- C5: the ODA surcharge is 0 whenever the overall ODA flag is false,
equals `max odaMin (odaPerKg × weight)` (hence is at least `odaMin`)
whenever it is true, and with no serviceability table loaded no leg is ODA,
the overall flag is false, and the reported ODA charge is 0. -/
theorem oda_surcharge_spec :
    (∀ (s : LogisticsSettings) (c : ℚ), odaChargeCalc false s c = 0) ∧
    (∀ (s : LogisticsSettings) (c : ℚ),
      odaChargeCalc true s c = max s.odaMin (s.odaPerKg * c) ∧
      s.odaMin ≤ odaChargeCalc true s c) ∧
    (∀ (pickup drop : LocationData) (w v : Option ℚ) (dims : Dimensions)
      (u : DimensionUnit) (s : LogisticsSettings) (o : ShipmentOptions)
      (r : CalculationResult), s.serviceabilityMap = none →
      calculate pickup drop w v dims u s o = some r →
      r.pickupOda = false ∧ r.deliveryOda = false ∧ r.isOda = false ∧
        r.odaCharge = 0) := by
  refine ⟨fun s c => rfl, fun s c => ⟨rfl, le_max_left _ _⟩, ?_⟩
  intro pickup drop w v dims u s o r hmap h
  obtain ⟨-, -, zf, zt, -, -, rfl⟩ := calculate_some_inv h
  rw [hmap]
  exact ⟨rfl, rfl, rfl, round2_zero⟩

/-- C5 witness: the clauses applied at the default settings, weight 20,
and at the basic run (whose settings carry no serviceability table). -/
theorem oda_surcharge_spec_witness :
    odaChargeCalc false DEFAULT_SETTINGS 20 = 0 ∧
    DEFAULT_SETTINGS.odaMin ≤ odaChargeCalc true DEFAULT_SETTINGS 20 ∧
    resultBasic.isOda = false ∧ resultBasic.odaCharge = 0 :=
  ⟨oda_surcharge_spec.1 DEFAULT_SETTINGS 20,
   (oda_surcharge_spec.2.1 DEFAULT_SETTINGS 20).2,
   (oda_surcharge_spec.2.2 pickupDelhi dropMumbai none none dims0 .cm
     DEFAULT_SETTINGS DEFAULT_OPTIONS resultBasic rfl
     calculate_basic_eval).2.2.1,
   (oda_surcharge_spec.2.2 pickupDelhi dropMumbai none none dims0 .cm
     DEFAULT_SETTINGS DEFAULT_OPTIONS resultBasic rfl
     calculate_basic_eval).2.2.2⟩

/-- C6: the regional surcharge applies exactly when the destination state
is Jammu & Kashmir (either spelling) or Himachal Pradesh, or resolves to
the NE zone without the Guwahati carve-out (city containing "guwahati"
case-insensitively, or pincode starting with 781); concretely it is 100
(non-zero) for Himachal Pradesh / Shimla and 0 for the NE destinations
Guwahati (by city) and Dispur 781001 (by pincode). -/
theorem regional_surcharge_scope :
    (∀ (drop : LocationData) (s : LogisticsSettings) (c : ℚ),
      (isRegionalZoneDest drop = true ↔
        toLowerStr drop.state = "jammu & kashmir" ∨
        toLowerStr drop.state = "himachal pradesh" ∨
        toLowerStr drop.state = "jammu and kashmir" ∨
        (getZone (toLowerStr drop.state) = some "NE" ∧
          ¬(strIncludes (toLowerStr drop.city) "guwahati" = true ∨
            startsWithStr drop.pincode "781" = true))) ∧
      (isRegionalZoneDest drop = true →
        regionalChargeCalc drop s c = s.regionalSurcharge * c) ∧
      (isRegionalZoneDest drop = false →
        regionalChargeCalc drop s c = 0)) ∧
    calculate pickupDelhi dropShimla none none dims0 .cm DEFAULT_SETTINGS
        DEFAULT_OPTIONS = some resultShimla ∧
    resultShimla.regionalCharge = 100 ∧
    calculate pickupDelhi dropGuwahati none none dims0 .cm DEFAULT_SETTINGS
        DEFAULT_OPTIONS = some resultGuwahati ∧
    resultGuwahati.regionalCharge = 0 ∧
    calculate pickupDelhi dropDispur none none dims0 .cm DEFAULT_SETTINGS
        DEFAULT_OPTIONS = some resultDispur ∧
    resultDispur.regionalCharge = 0 := by
  refine ⟨?_, calculate_shimla_eval, ?_, calculate_guwahati_eval, ?_,
    calculate_dispur_eval, ?_⟩
  · intro drop s c
    refine ⟨?_, ?_, ?_⟩
    · simp [isRegionalZoneDest, isGuwahatiDest]
      tauto
    · intro h
      simp [regionalChargeCalc, h]
    · intro h
      simp [regionalChargeCalc, h]
  · show round2 (regionalChargeCalc dropShimla DEFAULT_SETTINGS
      (chargeableWeightCalc ((none : Option ℚ).getD 0)
        (volumetricWeightCalc dims0 .cm DEFAULT_SETTINGS.volumetricDivisor)
        DEFAULT_SETTINGS.minChargeableWeight)) = 100
    rw [chargeable_basic]
    rw [show regionalChargeCalc dropShimla DEFAULT_SETTINGS 20
      = DEFAULT_SETTINGS.regionalSurcharge * 20 from by
        simp [regionalChargeCalc, show isRegionalZoneDest dropShimla = true
          from by decide]]
    show round2 (5 * 20) = 100
    rw [round2_of_mul_int (5 * 20) 10000 (by norm_num)]
    norm_num
  · show round2 (regionalChargeCalc dropGuwahati DEFAULT_SETTINGS
      (chargeableWeightCalc ((none : Option ℚ).getD 0)
        (volumetricWeightCalc dims0 .cm DEFAULT_SETTINGS.volumetricDivisor)
        DEFAULT_SETTINGS.minChargeableWeight)) = 0
    rw [show regionalChargeCalc dropGuwahati DEFAULT_SETTINGS _ = 0 from by
      simp [regionalChargeCalc, show isRegionalZoneDest dropGuwahati = false
        from by decide]]
    exact round2_zero
  · show round2 (regionalChargeCalc dropDispur DEFAULT_SETTINGS
      (chargeableWeightCalc ((none : Option ℚ).getD 0)
        (volumetricWeightCalc dims0 .cm DEFAULT_SETTINGS.volumetricDivisor)
        DEFAULT_SETTINGS.minChargeableWeight)) = 0
    rw [show regionalChargeCalc dropDispur DEFAULT_SETTINGS _ = 0 from by
      simp [regionalChargeCalc, show isRegionalZoneDest dropDispur = false
        from by decide]]
    exact round2_zero

/-- C6 witness: the scope clauses applied at the Shimla and Mumbai
destinations with weight 20. -/
theorem regional_surcharge_scope_witness :
    regionalChargeCalc dropShimla DEFAULT_SETTINGS 20
      = DEFAULT_SETTINGS.regionalSurcharge * 20 ∧
    regionalChargeCalc dropMumbai DEFAULT_SETTINGS 20 = 0 :=
  ⟨(regional_surcharge_scope.1 dropShimla DEFAULT_SETTINGS 20).2.1
      (by decide),
   (regional_surcharge_scope.1 dropMumbai DEFAULT_SETTINGS 20).2.2
      (by decide)⟩

/-- C7: `calculate` returns `none` exactly when a state is missing or an
endpoint's effective zone (state-derived, then serviceability-overridden)
is unresolved; and a missing numeric weight or declared-value field is
coerced to 0, producing the same result as an explicit 0. -/
theorem none_iff_zone_unresolved (pickup drop : LocationData)
    (w v : Option ℚ) (dims : Dimensions) (u : DimensionUnit)
    (s : LogisticsSettings) (o : ShipmentOptions) :
    (calculate pickup drop w v dims u s o = none ↔
      pickup.state = "" ∨ drop.state = "" ∨
      effectiveZone pickup s.serviceabilityMap = none ∨
      effectiveZone drop s.serviceabilityMap = none) ∧
    calculate pickup drop none none dims u s o
      = calculate pickup drop (some 0) (some 0) dims u s o := by
  refine ⟨⟨?_, ?_⟩, rfl⟩
  · intro h
    by_contra hcon
    push_neg at hcon
    obtain ⟨h1, h2, h3, h4⟩ := hcon
    obtain ⟨zf, hzf⟩ := Option.ne_none_iff_exists'.mp h3
    obtain ⟨zt, hzt⟩ := Option.ne_none_iff_exists'.mp h4
    rw [calculate_eq_some_of h1 h2 hzf hzt] at h
    exact Option.noConfusion h
  · intro h
    unfold calculate
    by_cases hc : pickup.state = "" ∨ drop.state = ""
    · rw [if_pos hc]
    · rw [if_neg hc]
      push_neg at hc
      rcases h with h | h | h | h
      · exact absurd h hc.1
      · exact absurd h hc.2
      · rw [h]
      · rw [h]
        cases effectiveZone pickup s.serviceabilityMap <;> rfl

/-- C7 witness: a blank pickup state yields `none`, and the coercion
equation at the basic run. -/
theorem none_iff_zone_unresolved_witness :
    calculate blankLocation dropMumbai none none dims0 .cm DEFAULT_SETTINGS
        DEFAULT_OPTIONS = none ∧
    calculate pickupDelhi dropMumbai none none dims0 .cm DEFAULT_SETTINGS
        DEFAULT_OPTIONS
      = calculate pickupDelhi dropMumbai (some 0) (some 0) dims0 .cm
        DEFAULT_SETTINGS DEFAULT_OPTIONS :=
  ⟨(none_iff_zone_unresolved blankLocation dropMumbai none none dims0 .cm
      DEFAULT_SETTINGS DEFAULT_OPTIONS).1.mpr (Or.inl rfl),
   (none_iff_zone_unresolved pickupDelhi dropMumbai none none dims0 .cm
      DEFAULT_SETTINGS DEFAULT_OPTIONS).2⟩

/-- C8: when a serviceability record with a non-empty zone exists for an
endpoint's exact pincode, the zone the engine uses for that endpoint is the
record's zone (irrespective of the state-derived zone), and the base rate
is looked up from the overridden zone. -/
theorem zone_override_precedence (pickup drop : LocationData)
    (w v : Option ℚ) (dims : Dimensions) (u : DimensionUnit)
    (s : LogisticsSettings) (o : ShipmentOptions) (tbl : ServiceabilityMap)
    (sr : ServiceabilityData) (r : CalculationResult)
    (hmap : s.serviceabilityMap = some tbl) :
    (tbl.lookup pickup.pincode = some sr → ¬sr.zone = "" →
      effectiveZone pickup s.serviceabilityMap = some sr.zone ∧
      (calculate pickup drop w v dims u s o = some r →
        r.zoneFrom = sr.zone ∧ r.baseRate = rateLookup sr.zone r.zoneTo)) ∧
    (tbl.lookup drop.pincode = some sr → ¬sr.zone = "" →
      effectiveZone drop s.serviceabilityMap = some sr.zone ∧
      (calculate pickup drop w v dims u s o = some r →
        r.zoneTo = sr.zone ∧ r.baseRate = rateLookup r.zoneFrom sr.zone)) := by
  constructor
  · intro hlk hz
    have heff : effectiveZone pickup s.serviceabilityMap = some sr.zone := by
      simp [effectiveZone, hmap, hlk, hz]
    refine ⟨heff, fun h => ?_⟩
    obtain ⟨-, -, zf, zt, hzf, hzt, rfl⟩ := calculate_some_inv h
    rw [heff] at hzf
    obtain rfl := Option.some.inj hzf
    exact ⟨rfl, rfl⟩
  · intro hlk hz
    have heff : effectiveZone drop s.serviceabilityMap = some sr.zone := by
      simp [effectiveZone, hmap, hlk, hz]
    refine ⟨heff, fun h => ?_⟩
    obtain ⟨-, -, zf, zt, hzf, hzt, rfl⟩ := calculate_some_inv h
    rw [heff] at hzt
    obtain rfl := Option.some.inj hzt
    exact ⟨rfl, rfl⟩

/-- C8 witness: the S1 override record on the Delhi pickup pincode forces
zoneFrom S1 and the S1-row base-rate lookup. -/
theorem zone_override_precedence_witness :
    effectiveZone pickupDelhi settingsOverride.serviceabilityMap
      = some recS1.zone ∧
    resultOverride.zoneFrom = recS1.zone ∧
    resultOverride.baseRate
      = rateLookup recS1.zone resultOverride.zoneTo := by
  have h := (zone_override_precedence pickupDelhi dropMumbai none none
    dims0 .cm settingsOverride DEFAULT_OPTIONS tblOverride recS1
    resultOverride rfl).1 rfl (by decide)
  exact ⟨h.1, (h.2 calculate_override_eval).1, (h.2 calculate_override_eval).2⟩

/-- C3: for every chargeable weight `w` and per-kg rate `r`, the basic
freight equals `max (r * w) minFreight`; for non-negative rates it is
monotonically non-decreasing in the weight, and the minimum-freight clamp
never reduces a freight already at or above the minimum. -/
theorem freight_is_max_clamp (r w m : ℚ) :
    basicFreight r w m = max (r * w) m ∧
    (0 ≤ r → ∀ w', w ≤ w' → basicFreight r w m ≤ basicFreight r w' m) ∧
    (m ≤ r * w → basicFreight r w m = r * w) := by
  have key : ∀ x : ℚ, basicFreight r x m = max (r * x) m := by
    intro x
    unfold basicFreight
    rcases lt_or_le (r * x) m with h | h
    · rw [if_pos h, max_eq_right h.le]
    · rw [if_neg (not_lt.mpr h), max_eq_left h]
  refine ⟨key w, ?_, ?_⟩
  · intro hr w' hww
    rw [key w, key w']
    exact max_le_max (mul_le_mul_of_nonneg_left hww hr) le_rfl
  · intro h
    rw [key w, max_eq_left h]

/-- C3 witness: at rate 12.5 and minimum 350, freight is the clamped max,
is monotone from weight 20 to weight 30, and is unclamped at weight 40. -/
theorem freight_is_max_clamp_witness :
    basicFreight 12.5 20 350 ≤ basicFreight 12.5 30 350 ∧
    basicFreight 12.5 40 350 = 12.5 * 40 :=
  ⟨(freight_is_max_clamp 12.5 20 350).2.1 (by norm_num) 30 (by norm_num),
   (freight_is_max_clamp 12.5 40 350).2.2 (by norm_num)⟩

/-- C4: the handling surcharge is tiered by chargeable weight with mutually
exclusive bands: 0 at or below 70 kg, `handling70to200 × weight` on the
71–200 band inclusive, and `handlingAbove200 × weight` above 200 kg; with
the default settings it is 0 at 70.00, strictly positive at 71.00, and at
200.01 uses the above-200 rate and not the 70–200 rate. -/
theorem handling_tiered (s : LogisticsSettings) (c : ℚ) :
    (c ≤ 70 → handlingChargeCalc s c = 0) ∧
    (71 ≤ c → c ≤ 200 → handlingChargeCalc s c = s.handling70to200 * c) ∧
    (200 < c → handlingChargeCalc s c = s.handlingAbove200 * c) ∧
    handlingChargeCalc DEFAULT_SETTINGS 70 = 0 ∧
    0 < handlingChargeCalc DEFAULT_SETTINGS 71 ∧
    handlingChargeCalc DEFAULT_SETTINGS 200.01
      = DEFAULT_SETTINGS.handlingAbove200 * 200.01 ∧
    handlingChargeCalc DEFAULT_SETTINGS 200.01
      ≠ DEFAULT_SETTINGS.handling70to200 * 200.01 := by
  refine ⟨?_, ?_, ?_, ?_, ?_, ?_, ?_⟩
  · intro h
    unfold handlingChargeCalc
    rw [if_neg (by push_neg; intro h71; linarith), if_neg (by linarith)]
  · intro h71 h200
    unfold handlingChargeCalc
    rw [if_pos ⟨h71, h200⟩]
  · intro h
    unfold handlingChargeCalc
    rw [if_neg (by push_neg; intro h71; linarith), if_pos h]
  · unfold handlingChargeCalc
    norm_num
  · unfold handlingChargeCalc DEFAULT_SETTINGS
    norm_num
  · unfold handlingChargeCalc
    rw [if_neg (by push_neg; intro h71; norm_num), if_pos (by norm_num)]
  · unfold handlingChargeCalc DEFAULT_SETTINGS
    rw [if_neg (by push_neg; intro h71; norm_num), if_pos (by norm_num)]
    norm_num

/-- C4 witness: the band clauses applied at weights 50, 100 and 250 under
the default settings. -/
theorem handling_tiered_witness :
    handlingChargeCalc DEFAULT_SETTINGS 50 = 0 ∧
    handlingChargeCalc DEFAULT_SETTINGS 100
      = DEFAULT_SETTINGS.handling70to200 * 100 ∧
    handlingChargeCalc DEFAULT_SETTINGS 250
      = DEFAULT_SETTINGS.handlingAbove200 * 250 :=
  ⟨(handling_tiered DEFAULT_SETTINGS 50).1 (by norm_num),
   (handling_tiered DEFAULT_SETTINGS 100).2.1 (by norm_num) (by norm_num),
   (handling_tiered DEFAULT_SETTINGS 250).2.2.1 (by norm_num)⟩

/-- C10: for every settings object, option set and chargeable weight,
turning on the holiday/Sunday option adds exactly the hard-coded 1000 to
the other-surcharges line (both before and after the two-decimal display
rounding); no settings field enters the increment. -/
theorem holiday_adds_hardcoded_1000 (s : LogisticsSettings)
    (o : ShipmentOptions) (c : ℚ) :
    otherSurchargesCalc { o with isHoliday := true } s c
      = otherSurchargesCalc { o with isHoliday := false } s c + 1000 ∧
    round2 (otherSurchargesCalc { o with isHoliday := true } s c)
      = round2 (otherSurchargesCalc { o with isHoliday := false } s c)
        + 1000 := by
  have key : otherSurchargesCalc { o with isHoliday := true } s c
      = otherSurchargesCalc { o with isHoliday := false } s c + 1000 := by
    unfold otherSurchargesCalc
    simp
    ring
  refine ⟨key, ?_⟩
  rw [key, round2_add_thousand]

/-- C9: the spec's worked example — Delhi to Maharashtra, 15 kg dead
weight, 40×30×20 cm at divisor 4500 — resolves zones N1 and W2, reports
volumetric weight 5.33, chargeable weight 20, base rate 12.5, freight 350
(250 clamped up to the minimum), fuel 87.5, AWB 100, zero ODA, handling and
regional charges, and total cost 538. -/
theorem example_scenario :
    calculate pickupDelhi dropMumbai (some 15) none ⟨40, 30, 20⟩ .cm
        DEFAULT_SETTINGS DEFAULT_OPTIONS =
      some { volumetricWeight := 5.33
             deadWeight := 15
             chargeableWeight := 20
             zoneFrom := "N1"
             zoneTo := "W2"
             baseRate := 12.5
             freightCharge := 350
             fuelSurcharge := 87.5
             awbCharge := 100
             odaCharge := 0
             handlingCharge := 0
             regionalCharge := 0
             otherSurcharges := 0
             codCharge := 0
             rovCharge := 0
             totalCost := 538
             isOda := false
             pickupOda := false
             deliveryOda := false
             warnings := [] } := by
  rw [show calculate pickupDelhi dropMumbai (some 15) none ⟨40, 30, 20⟩ .cm
      DEFAULT_SETTINGS DEFAULT_OPTIONS
    = some (calcCore pickupDelhi dropMumbai (some 15) none ⟨40, 30, 20⟩ .cm
        DEFAULT_SETTINGS DEFAULT_OPTIONS none "N1" "W2") from rfl]
  refine congrArg some ?_
  have hvol : volumetricWeightCalc ⟨40, 30, 20⟩ .cm
      DEFAULT_SETTINGS.volumetricDivisor = 16/3 := by
    unfold volumetricWeightCalc dimsInCm
    norm_num [DEFAULT_SETTINGS]
  have hch : chargeableWeightCalc ((some (15 : ℚ)).getD 0)
      (volumetricWeightCalc ⟨40, 30, 20⟩ .cm
        DEFAULT_SETTINGS.volumetricDivisor)
      DEFAULT_SETTINGS.minChargeableWeight = 20 := by
    rw [chargeableWeightCalc, hvol]
    show round2 (max (max 15 (16/3)) 20) = 20
    rw [show max (15 : ℚ) (16/3) = 15 from max_eq_left (by norm_num),
      show max (15 : ℚ) 20 = 20 from max_eq_right (by norm_num),
      round2_of_mul_int 20 2000 (by norm_num)]
  have hrate : rateLookup "N1" "W2" = 12.5 := rfl
  have hfr : basicFreight (rateLookup "N1" "W2")
      (chargeableWeightCalc ((some (15 : ℚ)).getD 0)
        (volumetricWeightCalc ⟨40, 30, 20⟩ .cm
          DEFAULT_SETTINGS.volumetricDivisor)
        DEFAULT_SETTINGS.minChargeableWeight)
      DEFAULT_SETTINGS.minFreightAmount = 350 := by
    rw [hch, hrate]
    show basicFreight 12.5 20 350 = 350
    unfold basicFreight
    norm_num
  have hfuel : fuelSurchargeCalc (basicFreight (rateLookup "N1" "W2")
      (chargeableWeightCalc ((some (15 : ℚ)).getD 0)
        (volumetricWeightCalc ⟨40, 30, 20⟩ .cm
          DEFAULT_SETTINGS.volumetricDivisor)
        DEFAULT_SETTINGS.minChargeableWeight)
      DEFAULT_SETTINGS.minFreightAmount)
      DEFAULT_SETTINGS.fuelSurchargePercent = 87.5 := by
    rw [fuelSurchargeCalc, hfr]
    show (350 : ℚ) * (25 / 100) = 87.5
    norm_num
  have hhand : handlingChargeCalc DEFAULT_SETTINGS
      (chargeableWeightCalc ((some (15 : ℚ)).getD 0)
        (volumetricWeightCalc ⟨40, 30, 20⟩ .cm
          DEFAULT_SETTINGS.volumetricDivisor)
        DEFAULT_SETTINGS.minChargeableWeight) = 0 := by
    rw [hch]
    unfold handlingChargeCalc
    norm_num
  have hreg : ∀ c : ℚ, regionalChargeCalc dropMumbai DEFAULT_SETTINGS c
      = 0 := by
    intro c
    simp [regionalChargeCalc,
      show isRegionalZoneDest dropMumbai = false from by decide]
  have hoth : ∀ c : ℚ, otherSurchargesCalc DEFAULT_OPTIONS DEFAULT_SETTINGS c
      = 0 := by
    intro c
    simp [otherSurchargesCalc, DEFAULT_OPTIONS]
  ext
  · show round2 (volumetricWeightCalc ⟨40, 30, 20⟩ .cm
      DEFAULT_SETTINGS.volumetricDivisor) = 5.33
    rw [hvol, round2_eval (16/3) 533 (by norm_num) (by norm_num)]
    norm_num
  · rfl
  · exact hch
  · rfl
  · rfl
  · exact hrate
  · show round2 (basicFreight (rateLookup "N1" "W2")
      (chargeableWeightCalc ((some (15 : ℚ)).getD 0)
        (volumetricWeightCalc ⟨40, 30, 20⟩ .cm
          DEFAULT_SETTINGS.volumetricDivisor)
        DEFAULT_SETTINGS.minChargeableWeight)
      DEFAULT_SETTINGS.minFreightAmount) = 350
    rw [hfr, round2_of_mul_int 350 35000 (by norm_num)]
  · show round2 (fuelSurchargeCalc (basicFreight (rateLookup "N1" "W2")
      (chargeableWeightCalc ((some (15 : ℚ)).getD 0)
        (volumetricWeightCalc ⟨40, 30, 20⟩ .cm
          DEFAULT_SETTINGS.volumetricDivisor)
        DEFAULT_SETTINGS.minChargeableWeight)
      DEFAULT_SETTINGS.minFreightAmount)
      DEFAULT_SETTINGS.fuelSurchargePercent) = 87.5
    rw [hfuel, round2_eval 87.5 8750 (by norm_num) (by norm_num)]
    norm_num
  · rfl
  · exact round2_zero
  · show round2 (handlingChargeCalc DEFAULT_SETTINGS
      (chargeableWeightCalc ((some (15 : ℚ)).getD 0)
        (volumetricWeightCalc ⟨40, 30, 20⟩ .cm
          DEFAULT_SETTINGS.volumetricDivisor)
        DEFAULT_SETTINGS.minChargeableWeight)) = 0
    rw [hhand]
    exact round2_zero
  · show round2 (regionalChargeCalc dropMumbai DEFAULT_SETTINGS
      (chargeableWeightCalc ((some (15 : ℚ)).getD 0)
        (volumetricWeightCalc ⟨40, 30, 20⟩ .cm
          DEFAULT_SETTINGS.volumetricDivisor)
        DEFAULT_SETTINGS.minChargeableWeight)) = 0
    rw [hreg]
    exact round2_zero
  · show round2 (otherSurchargesCalc DEFAULT_OPTIONS DEFAULT_SETTINGS
      (chargeableWeightCalc ((some (15 : ℚ)).getD 0)
        (volumetricWeightCalc ⟨40, 30, 20⟩ .cm
          DEFAULT_SETTINGS.volumetricDivisor)
        DEFAULT_SETTINGS.minChargeableWeight)) = 0
    rw [hoth]
    exact round2_zero
  · exact round2_zero
  · exact round2_zero
  · show round (basicFreight (rateLookup "N1" "W2")
        (chargeableWeightCalc ((some (15 : ℚ)).getD 0)
          (volumetricWeightCalc ⟨40, 30, 20⟩ .cm
            DEFAULT_SETTINGS.volumetricDivisor)
          DEFAULT_SETTINGS.minChargeableWeight)
        DEFAULT_SETTINGS.minFreightAmount
      + fuelSurchargeCalc (basicFreight (rateLookup "N1" "W2")
          (chargeableWeightCalc ((some (15 : ℚ)).getD 0)
            (volumetricWeightCalc ⟨40, 30, 20⟩ .cm
              DEFAULT_SETTINGS.volumetricDivisor)
            DEFAULT_SETTINGS.minChargeableWeight)
          DEFAULT_SETTINGS.minFreightAmount)
          DEFAULT_SETTINGS.fuelSurchargePercent
      + DEFAULT_SETTINGS.awbCharge
      + odaChargeCalc false DEFAULT_SETTINGS
          (chargeableWeightCalc ((some (15 : ℚ)).getD 0)
            (volumetricWeightCalc ⟨40, 30, 20⟩ .cm
              DEFAULT_SETTINGS.volumetricDivisor)
            DEFAULT_SETTINGS.minChargeableWeight)
      + handlingChargeCalc DEFAULT_SETTINGS
          (chargeableWeightCalc ((some (15 : ℚ)).getD 0)
            (volumetricWeightCalc ⟨40, 30, 20⟩ .cm
              DEFAULT_SETTINGS.volumetricDivisor)
            DEFAULT_SETTINGS.minChargeableWeight)
      + regionalChargeCalc dropMumbai DEFAULT_SETTINGS
          (chargeableWeightCalc ((some (15 : ℚ)).getD 0)
            (volumetricWeightCalc ⟨40, 30, 20⟩ .cm
              DEFAULT_SETTINGS.volumetricDivisor)
            DEFAULT_SETTINGS.minChargeableWeight)
      + otherSurchargesCalc DEFAULT_OPTIONS DEFAULT_SETTINGS
          (chargeableWeightCalc ((some (15 : ℚ)).getD 0)
            (volumetricWeightCalc ⟨40, 30, 20⟩ .cm
              DEFAULT_SETTINGS.volumetricDivisor)
            DEFAULT_SETTINGS.minChargeableWeight)
      + codChargeCalc DEFAULT_OPTIONS DEFAULT_SETTINGS
          ((none : Option ℚ).getD 0)
      + rovChargeCalc DEFAULT_OPTIONS DEFAULT_SETTINGS
          ((none : Option ℚ).getD 0)) = 538
    rw [hfuel, hfr, hhand, hreg, hoth]
    rw [show odaChargeCalc false DEFAULT_SETTINGS
      (chargeableWeightCalc ((some (15 : ℚ)).getD 0)
        (volumetricWeightCalc ⟨40, 30, 20⟩ .cm
          DEFAULT_SETTINGS.volumetricDivisor)
        DEFAULT_SETTINGS.minChargeableWeight) = 0 from rfl]
    rw [show codChargeCalc DEFAULT_OPTIONS DEFAULT_SETTINGS
      ((none : Option ℚ).getD 0) = 0 from rfl]
    rw [show rovChargeCalc DEFAULT_OPTIONS DEFAULT_SETTINGS
      ((none : Option ℚ).getD 0) = 0 from rfl]
    rw [show DEFAULT_SETTINGS.awbCharge = (100 : ℚ) from rfl]
    exact round_rat_eq _ 538 (by norm_num) (by norm_num)
  · rfl
  · rfl
  · rfl
  · rfl

end Proculator
